import Mathlib

/-!
Shallow embedding of the luks-duress daemon (src/daemon/duress_daemon.py):
event normalization, rule matching, arming gate, action dispatch, config
load/save and the control-command handler, together with theorems checking
the specification's claims about them.

Rules are Python dictionaries whose keys may be absent, so every rule field
is an `Option`; `Option.getD` models `dict.get(key, default)`.  External
side effects (subprocess invocations) are reified as an `ExtCall` trace and
log lines as a `List String`; JSON parsing of a payload is abstracted as an
`Option` (a failed parse is `none`).
-/

/-- Python `str.lower()` (ASCII case folding over the characters). -/
def strLower (s : String) : String := String.mk (s.data.map Char.toLower)

/-- Python `a or b` for an optional string `a`: the value of `a` when present
and non-empty (truthy), otherwise `b`. -/
def pyOrStr (a : Option String) (b : String) : String :=
  match a with
  | some s => if s = "" then b else s
  | none => b

/-- A rule dictionary.  Device entries and the global rule share this shape in
the source (both are plain dicts fed to `perform_action`); each field is
`none` when the key is absent. -/
structure RuleDict where
  id : Option String := none
  name : Option String := none
  vid : Option String := none
  pid : Option String := none
  serial : Option String := none
  mode : Option String := none
  action : Option String := none
  custom_cmd : Option String := none
  test_mode : Option Bool := none
  active : Option Bool := none
  wipe_target : Option String := none
deriving Repr, DecidableEq

/-- A normalized USB event, as built in `usb_monitor`. -/
structure UsbEvent where
  action : String
  vid : String
  pid : String
  serial : String
deriving Repr, DecidableEq

/-- A raw pyudev device record, restricted to the properties the daemon
reads: `DEVTYPE`, `dev.action`, `ID_VENDOR_ID`, `ID_MODEL_ID`, `ID_PATH`,
`ID_SERIAL`. -/
structure RawDevice where
  devtype : Option String := none
  action : String := "add"
  id_vendor_id : Option String := none
  id_model_id : Option String := none
  id_path : Option String := none
  id_serial : Option String := none
deriving Repr, DecidableEq

/-- The daemon's mutable module-level state: `armed`, `devices`,
`global_rules`, `last_usb_event`. -/
structure DaemonState where
  armed : Bool := false
  devices : List RuleDict := []
  global_rules : RuleDict := {}
  last_usb_event : Option UsbEvent := none
deriving Repr, DecidableEq

/-- An external side-effecting invocation made by the dispatcher:
the lock-screen helper, `systemctl poweroff`, the header-wipe helper with
its target, or a shell command. -/
inductive ExtCall where
  | lockHelper
  | poweroff
  | wipeHelper (target : String)
  | shellCmd (cmd : String)
deriving Repr, DecidableEq

/-- `perform_action(action_dict, event_action, name)`: returns the log lines
printed and the external calls made.  The armed check comes first, then the
test-mode check, then the action switch. -/
def perform_action (armed : Bool) (action_dict : RuleDict) (name : String) :
    List String × List ExtCall :=
  let action := action_dict.action.getD "lock"
  let test_mode := action_dict.test_mode.getD true
  let custom_cmd := action_dict.custom_cmd.getD ""
  if !armed then
    (["[Daemon] Trigger matched but system DISARMED."], [])
  else
    let header := "[Daemon] Triggered \x27" ++ name ++ "\x27 action: " ++ action
    if test_mode then
      ([header, "[Daemon] TEST MODE - action suppressed."], [])
    else if action = "lock" then
      ([header], [ExtCall.lockHelper])
    else if action = "shutdown" then
      ([header], [ExtCall.poweroff])
    else if action = "wipe" then
      let wipe_target := (action_dict.wipe_target.getD "").trim
      if wipe_target = "" then
        ([header, "[Daemon] WIPE REQUESTED but no wipe_target specified in rule."], [])
      else
        ([header], [ExtCall.wipeHelper wipe_target])
    else if action = "command" then
      if custom_cmd = "" then
        ([header, "[Daemon] No custom command."], [])
      else
        ([header], [ExtCall.shellCmd custom_cmd])
    else
      ([header], [])

/-- The per-rule body of `matching_devices`: does this device rule match the
event?  Inactive rules never match; an invalid or missing `mode` is coerced
to `"insert"`; empty `vid`/`pid`/`serial` are wildcards; `vid`/`pid` are
compared lower-cased. -/
def device_rule_matches (event_action vid pid serial : String) (dev : RuleDict) : Bool :=
  if !(dev.active.getD true) then false
  else
    let mode0 := dev.mode.getD "insert"
    let mode := if mode0 = "insert" ∨ mode0 = "remove" ∨ mode0 = "any" then mode0 else "insert"
    if mode ≠ "any" ∧ mode ≠ event_action then false
    else
      let dvid := strLower (dev.vid.getD "")
      let dpid := strLower (dev.pid.getD "")
      let dser := dev.serial.getD ""
      if dvid ≠ "" ∧ dvid ≠ vid then false
      else if dpid ≠ "" ∧ dpid ≠ pid then false
      else if dser ≠ "" ∧ dser ≠ serial then false
      else true

/-- `matching_devices`: the device rules matching this event, in list order. -/
def matching_devices (event_action vid pid serial : String)
    (devices : List RuleDict) : List RuleDict :=
  devices.filter (device_rule_matches event_action vid pid serial)

/-- `check_global_rule`: `some global_rules` when the global rule matches the
event, else `none`.  Inactive means no match; an invalid or missing `mode`
is coerced to `"any"`. -/
def check_global_rule (event_action : String) (global_rules : RuleDict) : Option RuleDict :=
  if !(global_rules.active.getD false) then none
  else
    let mode0 := global_rules.mode.getD "any"
    let mode := if mode0 = "insert" ∨ mode0 = "remove" ∨ mode0 = "any" then mode0 else "any"
    if mode ≠ "any" ∧ mode ≠ event_action then none
    else some global_rules

/-- One `perform_action` invocation requested by `handle_usb_event`: the rule
dict and the display name passed along. -/
structure Dispatch where
  rule : RuleDict
  name : String
deriving Repr, DecidableEq

/-- The dispatch made for a matching device rule (name defaults to
`"device"`). -/
def mk_dispatch (dev_entry : RuleDict) : Dispatch :=
  ⟨dev_entry, dev_entry.name.getD "device"⟩

/-- `handle_usb_event`: the ordered list of `perform_action` invocations for
one event — the global rule first when it matches, then every matching
device rule in list order. -/
def handle_usb_event (st : DaemonState) (event_action vid pid serial : String) :
    List Dispatch :=
  (match check_global_rule event_action st.global_rules with
   | some gl => [⟨gl, "GLOBAL"⟩]
   | none => []) ++
  (matching_devices event_action vid pid serial st.devices).map mk_dispatch

/-- The normalization performed inside `usb_monitor`: map `add` to `insert`
(anything else to `remove`), lower-case vid/pid, and take the serial from
`ID_PATH or ID_SERIAL or ""`. -/
def normalize_event (dev : RawDevice) : UsbEvent :=
  { action := if dev.action = "add" then "insert" else "remove"
    vid := strLower (dev.id_vendor_id.getD "")
    pid := strLower (dev.id_model_id.getD "")
    serial := pyOrStr dev.id_path (pyOrStr dev.id_serial "") }

/-- One iteration of the `usb_monitor` loop on a polled device: sub-device
notifications (`DEVTYPE` not `usb_device`) are skipped; otherwise
`last_usb_event` is updated and `handle_usb_event` is invoked. -/
def usb_monitor_step (st : DaemonState) (dev : RawDevice) :
    DaemonState × List Dispatch :=
  if dev.devtype ≠ some "usb_device" then (st, [])
  else
    let e := normalize_event dev
    let st2 := { st with last_usb_event := some e }
    (st2, handle_usb_event st2 e.action e.vid e.pid e.serial)

/-- The external calls produced by running `perform_action` over a dispatch
list in order. -/
def event_ext_calls (armed : Bool) : List Dispatch → List ExtCall
  | [] => []
  | d :: rest => (perform_action armed d.rule d.name).2 ++ event_ext_calls armed rest

/-- The persisted `rules.json` document; each top-level key may be absent. -/
structure ConfigData where
  devices : Option (List RuleDict) := none
  global_rules : Option RuleDict := none
deriving Repr, DecidableEq

/-- The default global rule `load_config` installs when the `global_rules`
key is absent. -/
def default_global : RuleDict :=
  { active := some false, mode := some "any", action := some "lock",
    custom_cmd := some "", test_mode := some true, wipe_target := some "" }

/-- `load_config` on a successfully parsed document: default the `devices`
and `global_rules` keys when absent, then backfill a missing `wipe_target`
on the global rule.  (An unreadable document makes the process exit and is
outside this model.) -/
def load_config (data : ConfigData) : List RuleDict × RuleDict :=
  let devices := data.devices.getD []
  let g0 := data.global_rules.getD default_global
  let g := if g0.wipe_target = none then { g0 with wipe_target := some "" } else g0
  (devices, g)

/-- `save_config`: the document written to disk. -/
def save_config (devices : List RuleDict) (global_rules : RuleDict) : ConfigData :=
  { devices := some devices, global_rules := some global_rules }

/-- A control request after prefix decoding; a payload is the result of
parsing its JSON, `none` on a parse failure. -/
inductive Command where
  | arm
  | disarm
  | get_devices
  | get_global
  | last_event
  | set_global (payload : Option RuleDict)
  | add_device (payload : Option RuleDict)
  | update_device (payload : Option RuleDict)
  | delete_device (dev_id : String)
  | unknown (message : String)
deriving Repr, DecidableEq

/-- A response frame sent back over the GUI socket. -/
inductive Response where
  | ok_armed
  | ok_disarmed
  | devices_list (ds : List RuleDict)
  | global_resp (g : RuleDict)
  | last_event_resp (e : Option UsbEvent)
  | ok_global_updated
  | error_bad_global_json
  | ok_device_added
  | error_bad_device_json
  | error_missing_device_id
  | ok_device_updated
  | error_device_not_found
  | ok_device_deleted
deriving Repr, DecidableEq

/-- Python truthiness test `not dev_id` on `dev.get("id")`: true when the key
is absent or the id is the empty string. -/
def falsy_id (i : Option String) : Bool :=
  match i with
  | none => true
  | some s => s = ""

/-- The `ADD_DEVICE` upsert loop: replace the first rule whose `id` equals
`dev_id`, else append. -/
def upsert_device (devices : List RuleDict) (dev_id : String) (dev : RuleDict) :
    List RuleDict :=
  match devices with
  | [] => [dev]
  | d :: rest =>
    if d.id = some dev_id then dev :: rest
    else d :: upsert_device rest dev_id dev

/-- The `UPDATE_DEVICE` loop: replace the first rule whose `id` equals
`dev_id` and report success, else `none` (DEVICE_NOT_FOUND). -/
def update_device_list (devices : List RuleDict) (dev_id : String) (dev : RuleDict) :
    Option (List RuleDict) :=
  match devices with
  | [] => none
  | d :: rest =>
    if d.id = some dev_id then some (dev :: rest)
    else (update_device_list rest dev_id dev).map (fun r => d :: r)

/-- `handle_command`: the new daemon state, the response frames sent, and the
config documents saved (in order). -/
def handle_command (st : DaemonState) (msg : Command) :
    DaemonState × List Response × List ConfigData :=
  match msg with
  | .arm => ({ st with armed := true }, [.ok_armed], [])
  | .disarm => ({ st with armed := false }, [.ok_disarmed], [])
  | .get_devices => (st, [.devices_list st.devices], [])
  | .get_global => (st, [.global_resp st.global_rules], [])
  | .last_event => (st, [.last_event_resp st.last_usb_event], [])
  | .set_global none => (st, [.error_bad_global_json], [])
  | .set_global (some new_gl) =>
    let new_gl2 :=
      if new_gl.wipe_target = none
      then { new_gl with wipe_target := some (st.global_rules.wipe_target.getD "") }
      else new_gl
    let st2 := { st with global_rules := new_gl2 }
    (st2, [.ok_global_updated], [save_config st2.devices st2.global_rules])
  | .add_device none => (st, [.error_bad_device_json], [])
  | .add_device (some dev) =>
    if falsy_id dev.id then (st, [.error_missing_device_id], [])
    else
      let devices2 := upsert_device st.devices (dev.id.getD "") dev
      let st2 := { st with devices := devices2 }
      (st2, [.ok_device_added], [save_config st2.devices st2.global_rules])
  | .update_device none => (st, [.error_bad_device_json], [])
  | .update_device (some dev) =>
    if falsy_id dev.id then (st, [.error_missing_device_id], [])
    else
      match update_device_list st.devices (dev.id.getD "") dev with
      | some devices2 =>
        let st2 := { st with devices := devices2 }
        (st2, [.ok_device_updated], [save_config st2.devices st2.global_rules])
      | none => (st, [.error_device_not_found], [])
  | .delete_device dev_id =>
    let devices2 := st.devices.filter (fun d => d.id ≠ some dev_id)
    if devices2.length ≠ st.devices.length then
      let st2 := { st with devices := devices2 }
      (st2, [.ok_device_deleted], [save_config st2.devices st2.global_rules])
    else
      (st, [.error_device_not_found], [])
  | .unknown _ => (st, [], [])

/-! ## Helper lemmas -/

/-- Disarmed dispatch makes no external call, whatever the rule says. -/
theorem perform_action_disarmed_calls (a : RuleDict) (nm : String) :
    (perform_action false a nm).2 = [] := rfl

/-- A disarmed dispatch list yields no external call at all. -/
theorem event_ext_calls_disarmed (ds : List Dispatch) :
    event_ext_calls false ds = [] := by
  induction ds with
  | nil => rfl
  | cons d rest ih =>
    simp [event_ext_calls, perform_action_disarmed_calls, ih]

/-- Lower-casing preserves emptiness of a string. -/
theorem strLower_eq_empty_iff (s : String) : strLower s = "" ↔ s = "" := by
  cases s with
  | mk l =>
    cases l with
    | nil => simp [strLower]
    | cons c cs =>
      constructor
      · intro h
        exact absurd (congrArg String.data h) (by simp [strLower])
      · intro h
        exact absurd (congrArg String.data h) (by simp)

/-! ## C1: arming gate -/

/-- Claim C1: for every matched rule and every event, if `armed = false` at
dispatch time, `perform_action` makes no external call regardless of the
rule's `test_mode`; and a monitor step on a top-level USB device still
records the normalized event as `last_usb_event` while producing no
external call. -/
theorem c1_arming_gate :
    (∀ (a : RuleDict) (nm : String), (perform_action false a nm).2 = []) ∧
    (∀ (st : DaemonState) (raw : RawDevice),
      st.armed = false → raw.devtype = some "usb_device" →
      (usb_monitor_step st raw).1.last_usb_event = some (normalize_event raw) ∧
      event_ext_calls (usb_monitor_step st raw).1.armed (usb_monitor_step st raw).2 = []) := by
  refine ⟨fun a nm => perform_action_disarmed_calls a nm, fun st raw harm hdev => ?_⟩
  have hstep : usb_monitor_step st raw =
      ({ st with last_usb_event := some (normalize_event raw) },
        handle_usb_event { st with last_usb_event := some (normalize_event raw) }
          (normalize_event raw).action (normalize_event raw).vid
          (normalize_event raw).pid (normalize_event raw).serial) := by
    simp [usb_monitor_step, hdev]
  rw [hstep]
  refine ⟨rfl, ?_⟩
  simp only [harm]
  exact event_ext_calls_disarmed _

/-- A state with a matching, non-test device rule but `armed = false`. -/
def c1_rule : RuleDict :=
  { id := some "A", name := some "devA", vid := some "1234", pid := some "abcd",
    serial := some "", mode := some "insert", action := some "wipe",
    test_mode := some false, active := some true, wipe_target := some "/dev/sda3" }

def c1_state : DaemonState :=
  { armed := false, devices := [c1_rule], global_rules := default_global }

def c1_raw : RawDevice :=
  { devtype := some "usb_device", action := "add", id_vendor_id := some "1234",
    id_model_id := some "ABCD", id_path := some "pci-0000:00-usb-0:2",
    id_serial := some "XYZ" }

theorem c1_arming_gate_witness :
    (perform_action false c1_rule "devA").2 = [] ∧
    ((usb_monitor_step c1_state c1_raw).1.last_usb_event = some (normalize_event c1_raw) ∧
      event_ext_calls (usb_monitor_step c1_state c1_raw).1.armed
        (usb_monitor_step c1_state c1_raw).2 = []) :=
  ⟨c1_arming_gate.1 c1_rule "devA", c1_arming_gate.2 c1_state c1_raw rfl rfl⟩

/-! ## C2: test-mode suppression, checked strictly after the armed check -/

/-- Claim C2: with `armed = true` and the rule's effective `test_mode` true,
the dispatcher logs the would-be action and the suppression notice and makes
no external call; and with `armed = false` the dispatcher returns at the
armed check, before the test-mode check, also with no external call. -/
theorem c2_test_mode_suppression (a : RuleDict) (nm : String)
    (ht : a.test_mode.getD true = true) :
    (perform_action true a nm).1 =
      ["[Daemon] Triggered \x27" ++ nm ++ "\x27 action: " ++ a.action.getD "lock",
       "[Daemon] TEST MODE - action suppressed."] ∧
    (perform_action true a nm).2 = [] ∧
    (perform_action false a nm).1 = ["[Daemon] Trigger matched but system DISARMED."] ∧
    (perform_action false a nm).2 = [] := by
  refine ⟨?_, ?_, rfl, rfl⟩ <;> simp [perform_action, ht]

theorem c2_test_mode_suppression_witness :
    default_global.test_mode.getD true = true ∧
    (perform_action true default_global "GLOBAL").2 = [] ∧
    (perform_action false default_global "GLOBAL").2 = [] :=
  ⟨rfl, (c2_test_mode_suppression default_global "GLOBAL" rfl).2.1,
    (c2_test_mode_suppression default_global "GLOBAL" rfl).2.2.2⟩

/-! ## C3: events with all identifying fields empty -/

/-- An all-wildcard active device rule. -/
def c3_rule : RuleDict :=
  { id := some "w", name := some "wild", vid := some "", pid := some "",
    serial := some "", mode := some "any", action := some "lock",
    test_mode := some false, active := some true }

def c3_state : DaemonState :=
  { armed := true, devices := [c3_rule], global_rules := default_global }

/-- A top-level USB record exposing none of `ID_VENDOR_ID`, `ID_MODEL_ID`,
`ID_PATH`, `ID_SERIAL`: its normalized vid, pid and serial are all empty. -/
def c3_raw : RawDevice := { devtype := some "usb_device", action := "add" }

/-- Counterexample to claim C3: an event whose vid, pid and serial are all
empty is not discarded — it reaches the Matcher (the wildcard device rule is
matched and dispatched, an external lock call fires) and is recorded. -/
theorem c3_counterexample :
    (normalize_event c3_raw).vid = "" ∧ (normalize_event c3_raw).pid = "" ∧
    (normalize_event c3_raw).serial = "" ∧
    (usb_monitor_step c3_state c3_raw).2 = [⟨c3_rule, "wild"⟩] ∧
    event_ext_calls true (usb_monitor_step c3_state c3_raw).2 = [ExtCall.lockHelper] :=
  ⟨rfl, rfl, rfl, rfl, rfl⟩

/-- Claim C3 (amended): a hotplug event whose three identifying fields are
all empty is NOT discarded: the monitor still records it as
`last_usb_event` and still performs rule matching on it — every device rule
matching it (for example an all-wildcard rule) is dispatched. -/
theorem c3_amended_no_discard (st : DaemonState) (raw : RawDevice) (dev : RuleDict)
    (hdev : raw.devtype = some "usb_device")
    (_hempty : (normalize_event raw).vid = "" ∧ (normalize_event raw).pid = "" ∧
      (normalize_event raw).serial = "")
    (hmem : dev ∈ st.devices)
    (hmatch : device_rule_matches (normalize_event raw).action (normalize_event raw).vid
      (normalize_event raw).pid (normalize_event raw).serial dev = true) :
    (usb_monitor_step st raw).1.last_usb_event = some (normalize_event raw) ∧
    mk_dispatch dev ∈ (usb_monitor_step st raw).2 := by
  have hstep : usb_monitor_step st raw =
      ({ st with last_usb_event := some (normalize_event raw) },
        handle_usb_event { st with last_usb_event := some (normalize_event raw) }
          (normalize_event raw).action (normalize_event raw).vid
          (normalize_event raw).pid (normalize_event raw).serial) := by
    simp [usb_monitor_step, hdev]
  rw [hstep]
  refine ⟨rfl, ?_⟩
  refine List.mem_append_right _ ?_
  exact List.mem_map_of_mem mk_dispatch (List.mem_filter.mpr ⟨hmem, hmatch⟩)

theorem c3_amended_no_discard_witness :
    (usb_monitor_step c3_state c3_raw).1.last_usb_event = some (normalize_event c3_raw) ∧
    mk_dispatch c3_rule ∈ (usb_monitor_step c3_state c3_raw).2 :=
  c3_amended_no_discard c3_state c3_raw c3_rule rfl ⟨rfl, rfl, rfl⟩
    (List.mem_singleton.mpr rfl) rfl

/-! ## C4: device-rule matching semantics -/

/-- The effective mode `matching_devices` uses for a device rule: the stored
mode when valid, else `"insert"`. -/
def eff_device_mode (dev : RuleDict) : String :=
  if dev.mode.getD "insert" = "insert" ∨ dev.mode.getD "insert" = "remove" ∨
      dev.mode.getD "insert" = "any"
  then dev.mode.getD "insert" else "insert"

/-- Characterization of `device_rule_matches` as a conjunction of
conditions. -/
theorem device_rule_matches_iff (ea vid pid serial : String) (dev : RuleDict) :
    device_rule_matches ea vid pid serial dev = true ↔
      dev.active.getD true = true ∧
      (eff_device_mode dev = "any" ∨ eff_device_mode dev = ea) ∧
      (strLower (dev.vid.getD "") = "" ∨ strLower (dev.vid.getD "") = vid) ∧
      (strLower (dev.pid.getD "") = "" ∨ strLower (dev.pid.getD "") = pid) ∧
      (dev.serial.getD "" = "" ∨ dev.serial.getD "" = serial) := by
  simp only [device_rule_matches, eff_device_mode]
  by_cases ha : dev.active.getD true = true
  · simp only [ha, Bool.not_true, Bool.false_eq_true, if_false, true_and]
    by_cases hmc : (if dev.mode.getD "insert" = "insert" ∨ dev.mode.getD "insert" = "remove" ∨
        dev.mode.getD "insert" = "any" then dev.mode.getD "insert" else "insert") = "any"
    · simp only [hmc, ne_eq, not_true_eq_false, false_and, if_false, true_or, true_and]
      by_cases hv : strLower (dev.vid.getD "") ≠ "" ∧ strLower (dev.vid.getD "") ≠ vid
      · simp only [if_pos hv, Bool.false_eq_true, false_iff]
        tauto
      · rw [if_neg hv]
        by_cases hp : strLower (dev.pid.getD "") ≠ "" ∧ strLower (dev.pid.getD "") ≠ pid
        · simp only [if_pos hp, Bool.false_eq_true, false_iff]
          tauto
        · rw [if_neg hp]
          by_cases hs : dev.serial.getD "" ≠ "" ∧ dev.serial.getD "" ≠ serial
          · simp only [if_pos hs, Bool.false_eq_true, false_iff]
            tauto
          · rw [if_neg hs]
            simp only [true_iff]
            push_neg at hv hp hs
            refine ⟨?_, ?_, ?_⟩ <;> tauto
    · by_cases hme : (if dev.mode.getD "insert" = "insert" ∨ dev.mode.getD "insert" = "remove" ∨
          dev.mode.getD "insert" = "any" then dev.mode.getD "insert" else "insert") = ea
      · rw [if_neg (by tauto)]
        simp only [hme, or_true, true_and]
        by_cases hv : strLower (dev.vid.getD "") ≠ "" ∧ strLower (dev.vid.getD "") ≠ vid
        · simp only [if_pos hv, Bool.false_eq_true, false_iff]
          tauto
        · rw [if_neg hv]
          by_cases hp : strLower (dev.pid.getD "") ≠ "" ∧ strLower (dev.pid.getD "") ≠ pid
          · simp only [if_pos hp, Bool.false_eq_true, false_iff]
            tauto
          · rw [if_neg hp]
            by_cases hs : dev.serial.getD "" ≠ "" ∧ dev.serial.getD "" ≠ serial
            · simp only [if_pos hs, Bool.false_eq_true, false_iff]
              tauto
            · rw [if_neg hs]
              simp only [true_iff]
              push_neg at hv hp hs
              refine ⟨?_, ?_, ?_⟩ <;> tauto
      · rw [if_pos ⟨hmc, hme⟩]
        simp only [Bool.false_eq_true, false_iff]
        tauto
  · simp only [Bool.not_eq_true] at ha
    simp only [ha, Bool.not_false, if_true, Bool.false_eq_true, false_iff]
    simp [ha]

/-- Claim C4: for a normalized event (vid/pid already lower-cased) and a
device rule with a valid mode, the rule matches iff it is active, its mode
is `any` or equals the event action, and every non-empty field among vid,
pid, serial equals the corresponding event field (case-insensitively for
vid and pid); moreover an all-wildcard active `mode=any` rule matches every
event, and an event with empty vid (resp. pid) never matches a rule whose
vid (resp. pid) is non-empty. -/
theorem c4_device_rule_semantics :
    (∀ (ea vid pid serial : String) (dev : RuleDict),
      strLower vid = vid → strLower pid = pid →
      (dev.mode.getD "insert" = "insert" ∨ dev.mode.getD "insert" = "remove" ∨
        dev.mode.getD "insert" = "any") →
      (device_rule_matches ea vid pid serial dev = true ↔
        dev.active.getD true = true ∧
        (dev.mode.getD "insert" = "any" ∨ dev.mode.getD "insert" = ea) ∧
        (dev.vid.getD "" = "" ∨ strLower (dev.vid.getD "") = strLower vid) ∧
        (dev.pid.getD "" = "" ∨ strLower (dev.pid.getD "") = strLower pid) ∧
        (dev.serial.getD "" = "" ∨ dev.serial.getD "" = serial))) ∧
    (∀ (ea vid pid serial : String) (dev : RuleDict),
      dev.vid.getD "" = "" → dev.pid.getD "" = "" → dev.serial.getD "" = "" →
      dev.mode.getD "insert" = "any" → dev.active.getD true = true →
      device_rule_matches ea vid pid serial dev = true) ∧
    (∀ (ea vid pid serial : String) (dev : RuleDict),
      (vid = "" ∧ dev.vid.getD "" ≠ "") ∨ (pid = "" ∧ dev.pid.getD "" ≠ "") →
      device_rule_matches ea vid pid serial dev = false) := by
  have hmode : ∀ dev : RuleDict,
      (dev.mode.getD "insert" = "insert" ∨ dev.mode.getD "insert" = "remove" ∨
        dev.mode.getD "insert" = "any") →
      eff_device_mode dev = dev.mode.getD "insert" := by
    intro dev h
    simp [eff_device_mode, h]
  refine ⟨?_, ?_, ?_⟩
  · intro ea vid pid serial dev hv hp hm
    rw [device_rule_matches_iff, hmode dev hm, hv, hp]
    constructor
    · rintro ⟨h1, h2, h3, h4, h5⟩
      refine ⟨h1, h2, ?_, ?_, h5⟩
      · rcases h3 with h | h
        · exact Or.inl ((strLower_eq_empty_iff _).mp h)
        · exact Or.inr h
      · rcases h4 with h | h
        · exact Or.inl ((strLower_eq_empty_iff _).mp h)
        · exact Or.inr h
    · rintro ⟨h1, h2, h3, h4, h5⟩
      refine ⟨h1, h2, ?_, ?_, h5⟩
      · rcases h3 with h | h
        · exact Or.inl ((strLower_eq_empty_iff _).mpr h)
        · exact Or.inr h
      · rcases h4 with h | h
        · exact Or.inl ((strLower_eq_empty_iff _).mpr h)
        · exact Or.inr h
  · intro ea vid pid serial dev h1 h2 h3 h4 h5
    rw [device_rule_matches_iff, hmode dev (Or.inr (Or.inr h4)), h4]
    refine ⟨h5, Or.inl rfl, ?_, ?_, Or.inl h3⟩
    · exact Or.inl ((strLower_eq_empty_iff _).mpr h1)
    · exact Or.inl ((strLower_eq_empty_iff _).mpr h2)
  · intro ea vid pid serial dev h
    by_contra hmatch
    rw [Bool.not_eq_false, device_rule_matches_iff] at hmatch
    obtain ⟨-, -, h3, h4, -⟩ := hmatch
    rcases h with ⟨hvid, hne⟩ | ⟨hpid, hne⟩
    · rcases h3 with h | h
      · exact hne ((strLower_eq_empty_iff _).mp h)
      · rw [hvid] at h
        exact hne ((strLower_eq_empty_iff _).mp h)
    · rcases h4 with h | h
      · exact hne ((strLower_eq_empty_iff _).mp h)
      · rw [hpid] at h
        exact hne ((strLower_eq_empty_iff _).mp h)

theorem c4_device_rule_semantics_witness :
    (strLower "1234" = "1234" ∧ strLower "abcd" = "abcd" ∧
      (c1_rule.mode.getD "insert" = "insert" ∨ c1_rule.mode.getD "insert" = "remove" ∨
        c1_rule.mode.getD "insert" = "any") ∧
      device_rule_matches "insert" "1234" "abcd" "xyz" c1_rule = true) ∧
    device_rule_matches "remove" "9999" "ffff" "s" c3_rule = true ∧
    device_rule_matches "insert" "" "abcd" "xyz" c1_rule = false := by
  refine ⟨⟨rfl, rfl, Or.inl rfl, ?_⟩, ?_, ?_⟩
  · exact (c4_device_rule_semantics.1 "insert" "1234" "abcd" "xyz" c1_rule rfl rfl
      (Or.inl rfl)).mpr (by decide)
  · exact c4_device_rule_semantics.2.1 "remove" "9999" "ffff" "s" c3_rule rfl rfl rfl rfl rfl
  · exact c4_device_rule_semantics.2.2 "insert" "" "abcd" "xyz" c1_rule
      (Or.inl ⟨rfl, by decide⟩)

/-! ## C5: global-before-device ordering, all matches fire -/

/-- Claim C5: for a single event the global rule, when it matches, is
dispatched first; device rules are dispatched in list (insertion) order —
the dispatch list is the global dispatch followed by the matching device
rules as an order-preserving sublist of the rule store — and every matching
device rule is dispatched, not only the first. -/
theorem c5_dispatch_ordering (st : DaemonState) (ea vid pid serial : String) :
    (∀ gl, check_global_rule ea st.global_rules = some gl →
      handle_usb_event st ea vid pid serial =
        ⟨gl, "GLOBAL"⟩ :: (matching_devices ea vid pid serial st.devices).map mk_dispatch) ∧
    (check_global_rule ea st.global_rules = none →
      handle_usb_event st ea vid pid serial =
        (matching_devices ea vid pid serial st.devices).map mk_dispatch) ∧
    (∀ dev ∈ st.devices, device_rule_matches ea vid pid serial dev = true →
      mk_dispatch dev ∈ handle_usb_event st ea vid pid serial) ∧
    (matching_devices ea vid pid serial st.devices).Sublist st.devices := by
  refine ⟨?_, ?_, ?_, List.filter_sublist _⟩
  · intro gl h
    simp [handle_usb_event, h]
  · intro h
    simp [handle_usb_event, h]
  · intro dev hmem hmatch
    exact List.mem_append_right _
      (List.mem_map_of_mem mk_dispatch (List.mem_filter.mpr ⟨hmem, hmatch⟩))

/-- An active catch-all global rule in test mode. -/
def c5_global : RuleDict :=
  { active := some true, mode := some "any", action := some "lock",
    test_mode := some true, wipe_target := some "" }

def c5_state : DaemonState :=
  { armed := true, devices := [c1_rule, c3_rule], global_rules := c5_global }

theorem c5_dispatch_ordering_witness :
    handle_usb_event c5_state "insert" "1234" "abcd" "xyz" =
      (⟨c5_global, "GLOBAL"⟩ : Dispatch) ::
        (matching_devices "insert" "1234" "abcd" "xyz" c5_state.devices).map mk_dispatch ∧
    mk_dispatch c3_rule ∈ handle_usb_event c5_state "insert" "1234" "abcd" "xyz" :=
  ⟨(c5_dispatch_ordering c5_state "insert" "1234" "abcd" "xyz").1 c5_global rfl,
    (c5_dispatch_ordering c5_state "insert" "1234" "abcd" "xyz").2.2.1 c3_rule
      (by decide) rfl⟩

/-! ## C6: load defaults and round-trip persistence -/

/-- A parsed config whose global rule is present but missing `mode`,
`action` and `test_mode`. -/
def c6_data : ConfigData :=
  { devices := some [], global_rules := some { active := some true } }

/-- Counterexample to claim C6: `load_config` does NOT backfill a missing
`mode` (nor `action`, nor `test_mode`) on a present global rule — only
`wipe_target` is backfilled. -/
theorem c6_counterexample :
    (load_config c6_data).2.mode = none ∧
    (load_config c6_data).2.mode ≠ some "any" ∧
    (load_config c6_data).2.action = none ∧
    (load_config c6_data).2.test_mode = none ∧
    (load_config c6_data).2.wipe_target = some "" :=
  ⟨rfl, by decide, rfl, rfl, rfl⟩

/-- Claim C6 (amended): when the `global_rules` key is present,
`load_config` backfills only a missing `wipe_target` (with `""`); the full
documented defaults are installed only when the key is absent entirely.  A
`save_config` followed by `load_config` returns the saved devices unchanged
and the saved global rule unchanged except for that `wipe_target`
backfill. -/
theorem c6_roundtrip_amended (devices : List RuleDict) (g : RuleDict) :
    load_config (save_config devices g) =
      (devices, if g.wipe_target = none then { g with wipe_target := some "" } else g) ∧
    load_config { devices := none, global_rules := none } = ([], default_global) :=
  ⟨rfl, rfl⟩

/-! ## C7: ADD_DEVICE upsert-by-id -/

/-- When no stored rule carries the id, the upsert appends. -/
theorem upsert_device_append (devices : List RuleDict) (dev_id : String) (dev : RuleDict)
    (h : ∀ d ∈ devices, d.id ≠ some dev_id) :
    upsert_device devices dev_id dev = devices ++ [dev] := by
  induction devices with
  | nil => rfl
  | cons d rest ih =>
    simp only [upsert_device]
    rw [if_neg (h d (List.mem_cons_self d rest)),
      ih (fun x hx => h x (List.mem_cons_of_mem d hx))]
    rfl

/-- When position `i` holds the first rule carrying the id, the upsert
replaces exactly that position. -/
theorem upsert_device_replace (devices : List RuleDict) (dev_id : String) (dev : RuleDict)
    (i : Nat) (d0 : RuleDict)
    (hget : devices[i]? = some d0) (hid : d0.id = some dev_id)
    (hfirst : ∀ j, j < i → ∀ d1, devices[j]? = some d1 → d1.id ≠ some dev_id) :
    (upsert_device devices dev_id dev).length = devices.length ∧
    (upsert_device devices dev_id dev)[i]? = some dev ∧
    ∀ j, j ≠ i → (upsert_device devices dev_id dev)[j]? = devices[j]? := by
  induction devices generalizing i with
  | nil => simp at hget
  | cons d rest ih =>
    cases i with
    | zero =>
      rw [List.getElem?_cons_zero] at hget
      obtain rfl : d = d0 := by injection hget
      simp only [upsert_device, if_pos hid]
      refine ⟨by simp, by simp, ?_⟩
      intro j hj
      cases j with
      | zero => exact absurd rfl hj
      | succ k => simp [List.getElem?_cons_succ]
    | succ k =>
      rw [List.getElem?_cons_succ] at hget
      have hd : d.id ≠ some dev_id := by
        exact hfirst 0 (Nat.succ_pos k) d (List.getElem?_cons_zero)
      have hfirst2 : ∀ j, j < k → ∀ d1, rest[j]? = some d1 → d1.id ≠ some dev_id := by
        intro j hj d1 hgd
        exact hfirst (j + 1) (Nat.succ_lt_succ hj) d1 (by rw [List.getElem?_cons_succ]; exact hgd)
      obtain ⟨ih1, ih2, ih3⟩ := ih k hget hfirst2
      simp only [upsert_device, if_neg hd]
      refine ⟨by simp [ih1], by simp [List.getElem?_cons_succ, ih2], ?_⟩
      intro j hj
      cases j with
      | zero => simp [List.getElem?_cons_zero]
      | succ m =>
        rw [List.getElem?_cons_succ, List.getElem?_cons_succ]
        exact ih3 m (fun hmk => hj (by rw [hmk]))

/-- Claim C7: an `ADD_DEVICE` whose payload carries a (non-empty) id equal to
the id of the stored rule at position `i` (and of no earlier rule) replaces
that rule in place — the length and every other position are unchanged —
and when no stored rule carries the id, the new rule is appended at the
end; the handler's device list is exactly this upsert. -/
theorem c7_upsert_by_id :
    (∀ (st : DaemonState) (dev : RuleDict) (s : String),
      dev.id = some s → s ≠ "" →
      (handle_command st (Command.add_device (some dev))).1.devices =
        upsert_device st.devices s dev) ∧
    (∀ (devices : List RuleDict) (dev_id : String) (dev : RuleDict) (i : Nat)
        (d0 : RuleDict),
      devices[i]? = some d0 → d0.id = some dev_id →
      (∀ j, j < i → ∀ d1, devices[j]? = some d1 → d1.id ≠ some dev_id) →
      (upsert_device devices dev_id dev).length = devices.length ∧
      (upsert_device devices dev_id dev)[i]? = some dev ∧
      ∀ j, j ≠ i → (upsert_device devices dev_id dev)[j]? = devices[j]?) ∧
    (∀ (devices : List RuleDict) (dev_id : String) (dev : RuleDict),
      (∀ d ∈ devices, d.id ≠ some dev_id) →
      upsert_device devices dev_id dev = devices ++ [dev]) := by
  refine ⟨?_, upsert_device_replace, upsert_device_append⟩
  intro st dev s hid hs
  simp [handle_command, falsy_id, hid, hs]

/-- A second stored rule, distinct id. -/
def c7_rule_b : RuleDict :=
  { id := some "B", name := some "devB", vid := some "5678", mode := some "any",
    action := some "lock", test_mode := some true, active := some true }

/-- A replacement payload reusing id "A". -/
def c7_payload : RuleDict :=
  { id := some "A", name := some "devA2", vid := some "9999", mode := some "any",
    action := some "lock", test_mode := some true, active := some false }

theorem c7_upsert_by_id_witness :
    (handle_command { armed := false, devices := [c1_rule, c7_rule_b] }
        (Command.add_device (some c7_payload))).1.devices =
      upsert_device [c1_rule, c7_rule_b] "A" c7_payload ∧
    (upsert_device [c1_rule, c7_rule_b] "A" c7_payload).length = 2 ∧
    (upsert_device [c1_rule, c7_rule_b] "A" c7_payload)[0]? = some c7_payload ∧
    (upsert_device [c1_rule, c7_rule_b] "A" c7_payload)[1]? = some c7_rule_b ∧
    upsert_device [c1_rule, c7_rule_b] "C" c7_payload = [c1_rule, c7_rule_b, c7_payload] := by
  have h1 := c7_upsert_by_id.1 { armed := false, devices := [c1_rule, c7_rule_b] }
    c7_payload "A" rfl (by decide)
  have h2 := c7_upsert_by_id.2.1 [c1_rule, c7_rule_b] "A" c7_payload 0 c1_rule rfl rfl
    (fun j hj d1 _ => absurd hj (Nat.not_lt_zero j))
  have h3 := c7_upsert_by_id.2.2 [c1_rule, c7_rule_b] "C" c7_payload (by decide)
  exact ⟨h1, h2.1, h2.2.1, h2.2.2 1 one_ne_zero, h3⟩

/-! ## C8: configuration vs. arming state independence -/

/-- Claim C8: every configuration mutation (`SET_GLOBAL`, `ADD_DEVICE`,
`UPDATE_DEVICE`, `DELETE_DEVICE`) leaves `armed` unchanged, and `ARM` /
`DISARM` leave the device list and the global rule unchanged and write no
config document. -/
theorem c8_config_arming_independent (st : DaemonState) (msg : Command) :
    ((∃ p, msg = Command.set_global p) ∨ (∃ p, msg = Command.add_device p) ∨
      (∃ p, msg = Command.update_device p) ∨ (∃ s, msg = Command.delete_device s) →
      (handle_command st msg).1.armed = st.armed) ∧
    (msg = Command.arm ∨ msg = Command.disarm →
      (handle_command st msg).1.devices = st.devices ∧
      (handle_command st msg).1.global_rules = st.global_rules ∧
      (handle_command st msg).2.2 = []) := by
  constructor
  · rintro (⟨p, rfl⟩ | ⟨p, rfl⟩ | ⟨p, rfl⟩ | ⟨s, rfl⟩)
    · cases p with
      | none => rfl
      | some g => rfl
    · cases p with
      | none => rfl
      | some dev =>
        simp only [handle_command]
        split
        · rfl
        · rfl
    · cases p with
      | none => rfl
      | some dev =>
        simp only [handle_command]
        split
        · rfl
        · split
          · rfl
          · rfl
    · simp only [handle_command]
      split
      · rfl
      · rfl
  · rintro (rfl | rfl) <;> exact ⟨rfl, rfl, rfl⟩

theorem c8_config_arming_independent_witness :
    (handle_command c5_state (Command.delete_device "A")).1.armed = c5_state.armed ∧
    ((handle_command c5_state Command.arm).1.devices = c5_state.devices ∧
      (handle_command c5_state Command.arm).1.global_rules = c5_state.global_rules ∧
      (handle_command c5_state Command.arm).2.2 = []) :=
  ⟨(c8_config_arming_independent c5_state (Command.delete_device "A")).1
      (Or.inr (Or.inr (Or.inr ⟨"A", rfl⟩))),
    (c8_config_arming_independent c5_state Command.arm).2 (Or.inl rfl)⟩

/-! ## C9: serial extraction order -/

/-- A record exposing both a path identifier and a serial identifier. -/
def c9_raw : RawDevice :=
  { devtype := some "usb_device", action := "add",
    id_path := some "pci-0000:00:14.0-usb-0:2", id_serial := some "SERIAL123" }

/-- Counterexample to claim C9: for a record exposing both `ID_SERIAL` and
`ID_PATH`, the normalized serial is the PATH identifier, not the serial
property. -/
theorem c9_counterexample :
    (normalize_event c9_raw).serial = "pci-0000:00:14.0-usb-0:2" ∧
    (normalize_event c9_raw).serial ≠ "SERIAL123" :=
  ⟨rfl, by decide⟩

/-- Claim C9 (amended): the normalizer takes the serial field from the
path-based identifier (`ID_PATH`) whenever it is present and non-empty, and
only otherwise falls back to the serial property (`ID_SERIAL`), then to the
empty string. -/
theorem c9_serial_prefers_path :
    (∀ (raw : RawDevice) (p : String), raw.id_path = some p → p ≠ "" →
      (normalize_event raw).serial = p) ∧
    (∀ raw : RawDevice, raw.id_path = none ∨ raw.id_path = some "" →
      (normalize_event raw).serial = pyOrStr raw.id_serial "") := by
  constructor
  · intro raw p hp hne
    simp [normalize_event, pyOrStr, hp, hne]
  · rintro raw (h | h) <;> simp [normalize_event, pyOrStr, h]

theorem c9_serial_prefers_path_witness :
    c9_raw.id_path = some "pci-0000:00:14.0-usb-0:2" ∧
    "pci-0000:00:14.0-usb-0:2" ≠ "" ∧
    (normalize_event c9_raw).serial = "pci-0000:00:14.0-usb-0:2" :=
  ⟨rfl, by decide, c9_serial_prefers_path.1 c9_raw "pci-0000:00:14.0-usb-0:2" rfl (by decide)⟩

/-! ## C10: invalid or missing mode is coerced, not rejected -/

/-- Claim C10: a device rule whose `mode` is invalid or missing is matched
exactly as if `mode = "insert"`, and a global rule whose `mode` is invalid
or missing matches exactly as if `mode = "any"`; in neither case is the
rule rejected. -/
theorem c10_mode_coercion :
    (∀ (ea vid pid serial : String) (dev : RuleDict) (m : String),
      ¬(m = "insert" ∨ m = "remove" ∨ m = "any") →
      device_rule_matches ea vid pid serial { dev with mode := some m } =
        device_rule_matches ea vid pid serial { dev with mode := some "insert" }) ∧
    (∀ (ea vid pid serial : String) (dev : RuleDict),
      device_rule_matches ea vid pid serial { dev with mode := none } =
        device_rule_matches ea vid pid serial { dev with mode := some "insert" }) ∧
    (∀ (ea : String) (g : RuleDict) (m : String),
      ¬(m = "insert" ∨ m = "remove" ∨ m = "any") →
      (check_global_rule ea { g with mode := some m }).isSome =
        (check_global_rule ea { g with mode := some "any" }).isSome) ∧
    (∀ (ea : String) (g : RuleDict),
      (check_global_rule ea { g with mode := none }).isSome =
        (check_global_rule ea { g with mode := some "any" }).isSome) := by
  refine ⟨?_, ?_, ?_, ?_⟩
  · intro ea vid pid serial dev m hm
    simp [device_rule_matches, hm]
  · intro ea vid pid serial dev
    simp [device_rule_matches]
  · intro ea g m hm
    simp only [check_global_rule, hm]
    by_cases ha : g.active.getD false = false
    · simp [ha]
    · simp [ha]
      exact fun h => absurd h hm
  · intro ea g
    simp only [check_global_rule]
    by_cases ha : g.active.getD false = false <;> simp [ha]

theorem c10_mode_coercion_witness :
    ¬("bogus" = "insert" ∨ "bogus" = "remove" ∨ "bogus" = "any") ∧
    device_rule_matches "insert" "" "" "" { c3_rule with mode := some "bogus" } =
      device_rule_matches "insert" "" "" "" { c3_rule with mode := some "insert" } ∧
    (check_global_rule "remove" { c5_global with mode := some "bogus" }).isSome =
      (check_global_rule "remove" { c5_global with mode := some "any" }).isSome :=
  ⟨by decide,
    c10_mode_coercion.1 "insert" "" "" "" c3_rule "bogus" (by decide),
    c10_mode_coercion.2.2.1 "remove" c5_global "bogus" (by decide)⟩
